import Mathlib

/-!
Shallow embedding of `src/run.py`, a single-file batch pipeline:
configuration loader (`load_config`), dataset loader (`load_data`),
signal computation (pandas rolling mean + threshold signal) and report
emission with a single top-level failure boundary (`main`).

Modelling conventions:
* Numeric values (the `close` column, means, rates) are embedded as `ℚ`;
  the source's IEEE floats are idealised as exact rationals.
* A file that a loader reads is abstracted as `FileContent α`:
  it is missing, unparsable, or parses to a document of type `α`
  (a key-value mapping for YAML, a `Table` for CSV).
* Python exceptions become the `PyError` sum type. The source raises
  `FileNotFoundError` and `ValueError` with fixed messages; a failure of
  `yaml.safe_load` propagates as a `yaml.YAMLError` (constructor
  `yamlError`); exceptions raised inside the pandas rolling call
  are `valueError` with pandas' message.
* Wall-clock time enters the report only through `latency_ms`; it is
  passed to `mainRun` as an explicit parameter.
* `np.random.seed(seed)` has no observable effect in the pipeline and is
  modelled as a no-op.
-/

/-- A scalar value as parsed from the YAML config: an integer or a string.
(The source performs no type validation on config values.) -/
inductive Val where
  | int (n : ℤ)
  | str (s : String)
deriving DecidableEq, Repr

/-- The Python exceptions the pipeline can raise, tagged by their message.
`fileNotFound` is `FileNotFoundError`, `yamlError` is `yaml.YAMLError`
(propagating out of `yaml.safe_load`), `valueError` is `ValueError`. -/
inductive PyError where
  | fileNotFound (msg : String)
  | yamlError (msg : String)
  | valueError (msg : String)
deriving DecidableEq, Repr

/-- The message carried by an exception (`str(e)` in the handler). -/
def PyError.message : PyError → String
  | .fileNotFound m => m
  | .yamlError m => m
  | .valueError m => m

/-- Abstraction of a file as seen by a loader: the path does not exist,
the content cannot be parsed into a document of type `α`, or it parses
to a document `a`. -/
inductive FileContent (α : Type) where
  | missing
  | unparsable
  | parsed (a : α)
deriving DecidableEq

/-- The three config values extracted by `main` after `load_config`
succeeds (`config["seed"]`, `config["window"]`, `config["version"]`). -/
structure Config where
  seed : Val
  window : Val
  version : Val
deriving DecidableEq, Repr

/-- Embedding of `load_config` (src/run.py lines 20-32): raise
`FileNotFoundError("Configuration file not found")` when the path does
not exist; parse with `yaml.safe_load`, whose failure propagates as a
`yaml.YAMLError`; raise `ValueError("Invalid configuration file
structure")` when any of the keys `seed`, `window`, `version` is absent;
otherwise return the config. -/
def load_config (file : FileContent (List (String × Val))) : Except PyError Config :=
  match file with
  | .missing => .error (.fileNotFound "Configuration file not found")
  | .unparsable => .error (.yamlError "could not parse configuration document")
  | .parsed kvs =>
    match kvs.lookup "seed", kvs.lookup "window", kvs.lookup "version" with
    | some s, some w, some v => .ok ⟨s, w, v⟩
    | _, _, _ => .error (.valueError "Invalid configuration file structure")

/-- A parsed CSV table: header columns and data rows, each row giving the
cell values positionally aligned with the columns. Cell values are
idealised as rationals. -/
structure Table where
  columns : List String
  rows : List (List ℚ)
deriving DecidableEq

/-- The `close` column of a table: for each row, the cell at the position
of `"close"` in the header (`df["close"]`). -/
def Table.close (t : Table) : List ℚ :=
  t.rows.map (fun r => r.getD (t.columns.indexOf "close") 0)

/-- Embedding of `load_data` (src/run.py lines 35-49): raise
`FileNotFoundError("Input CSV file not found")` when the path does not
exist; a `pd.read_csv` failure is converted to
`ValueError("Invalid CSV file format")`; then
`ValueError("Input file is empty")` when the parsed table has no data
rows (`df.empty`); then `ValueError("Missing required column: close")`
when no `close` column exists; otherwise return the table. -/
def load_data (file : FileContent Table) : Except PyError Table :=
  match file with
  | .missing => .error (.fileNotFound "Input CSV file not found")
  | .unparsable => .error (.valueError "Invalid CSV file format")
  | .parsed t =>
    if t.rows.isEmpty then .error (.valueError "Input file is empty")
    else if ¬ t.columns.contains "close" then
      .error (.valueError "Missing required column: close")
    else .ok t

/-- Embedding of `df["close"].rolling(window=w).mean()` at row index `i`
(0-based), for an integer window `w ≥ 0`. Pandas defaults `min_periods`
to the window size, so the value is defined exactly when the window is
full (`w ≤ i + 1`) and holds at least one observation (`0 < w`); it is
then the arithmetic mean of the `w` closes ending at row `i`. Otherwise
the cell is NaN, modelled as `none`. -/
def rollingMean (close : List ℚ) (w : ℕ) (i : ℕ) : Option ℚ :=
  if 0 < w ∧ w ≤ i + 1 then
    some (((close.drop (i + 1 - w)).take w).sum / (w : ℚ))
  else none

/-- Embedding of `(df["close"] > df["rolling_mean"]).astype(int)` at row
`i`: `1` when the close strictly exceeds the rolling mean, `0` otherwise.
A NaN rolling mean compares as not-greater, yielding `0`. -/
def signal (close : List ℚ) (w : ℕ) (i : ℕ) : ℕ :=
  match rollingMean close w i with
  | none => 0
  | some m => if close.getD i 0 > m then 1 else 0

/-- The signal column: one value per row. -/
def signals (close : List ℚ) (w : ℕ) : List ℕ :=
  (List.range close.length).map (signal close w)

/-- Embedding of `df["signal"].mean()`: the sum of the signal column
divided by the number of rows. -/
def signalRate (close : List ℚ) (w : ℕ) : ℚ :=
  ((signals close w).sum : ℚ) / (close.length : ℚ)

/-- Round a rational to the nearest integer, ties to even — the rounding
mode of Python's built-in `round`. -/
def roundHalfEven (q : ℚ) : ℤ :=
  if q - ⌊q⌋ < 1/2 then ⌊q⌋
  else if q - ⌊q⌋ > 1/2 then ⌊q⌋ + 1
  else if ⌊q⌋ % 2 = 0 then ⌊q⌋ else ⌊q⌋ + 1

/-- Embedding of `round(float(signal_rate), 4)`: round to 4 decimal
places, ties to even. -/
def round4 (q : ℚ) : ℚ := (roundHalfEven (q * 10000) : ℚ) / 10000

/-- Embedding of pandas' window validation inside
`df["close"].rolling(window=window)`: a non-integer or negative window
raises a `ValueError`; a window `w ≥ 0` is accepted as the natural
number `w`. -/
def windowArg (w : Val) : Except PyError ℕ :=
  match w with
  | .int n => if n < 0 then .error (.valueError "window must be an integer 0 or greater") else .ok n.toNat
  | .str _ => .error (.valueError "window must be an integer 0 or greater")

/-- The JSON report written by the pipeline. `success` carries the fields
`version`, `rows_processed`, `metric`, `value`, `latency_ms`, `seed`,
`status`; `failure` (the error report) carries only `version`, `status`,
`error_message`. -/
inductive Report where
  | success (version : Val) (rows_processed : ℕ) (metric : String) (value : ℚ)
      (latency_ms : ℕ) (seed : Val) (status : String) : Report
  | failure (version : Val) (status : String) (error_message : String) : Report
deriving DecidableEq, Repr

/-- A report with its `latency_ms` field erased (set to 0): the view
compared across runs, since latency is the only timing-dependent field. -/
def Report.core : Report → Report
  | .success v r m val _ s st => .success v r m val 0 s st
  | .failure v st msg => .failure v st msg

/-- The observable outcome of one invocation of `main`: the report it
returns, the process exit code, and the sequence of documents written to
the output path, in order. -/
structure RunResult where
  report : Report
  exitCode : ℕ
  writes : List Report
deriving DecidableEq

/-- Embedding of `main` (src/run.py lines 53-133) after argument
parsing: load config, load data, compute rolling mean / signal /
signal rate, and write the success report; any fault from a stage is
caught once at the top level and converted into an error report whose
`version` is the loaded config's version when `load_config` had
succeeded (`'config' in locals()`) and `"unknown"` otherwise. Exit code
0 on success, 1 on any caught failure. `latency` is the measured
wall-clock duration in ms. -/
def mainRun (cfgFile : FileContent (List (String × Val))) (dataFile : FileContent Table)
    (latency : ℕ) : RunResult :=
  match load_config cfgFile with
  | .error e =>
    let r := Report.failure (Val.str "unknown") "error" e.message
    ⟨r, 1, [r]⟩
  | .ok cfg =>
    match load_data dataFile with
    | .error e =>
      let r := Report.failure cfg.version "error" e.message
      ⟨r, 1, [r]⟩
    | .ok t =>
      match windowArg cfg.window with
      | .error e =>
        let r := Report.failure cfg.version "error" e.message
        ⟨r, 1, [r]⟩
      | .ok w =>
        let r := Report.success cfg.version t.rows.length "signal_rate"
          (round4 (signalRate t.close w)) latency cfg.seed "success"
        ⟨r, 0, [r]⟩

/-! ### Helper lemmas -/

/-- The sum of the length-`n` slice of `l` starting at `a` is the sum of
the entries `l.getD (a + k) 0` for `k < n`. -/
theorem sum_drop_take (l : List ℚ) (a n : ℕ) (h : a + n ≤ l.length) :
    ((l.drop a).take n).sum = ∑ k ∈ Finset.range n, l.getD (a + k) 0 := by
  induction n generalizing a with
  | zero => simp
  | succ n ih =>
    have ha : a < l.length := by omega
    rw [List.drop_eq_getElem_cons ha, List.take_succ_cons, List.sum_cons,
      ih (a + 1) (by omega), Finset.sum_range_succ']
    have h0 : l.getD (a + 0) 0 = l[a] := by
      rw [Nat.add_zero]; exact List.getD_eq_getElem l 0 ha
    have h1 : ∀ k, l.getD (a + 1 + k) 0 = l.getD (a + (k + 1)) 0 := by
      intro k; rw [show a + 1 + k = a + (k + 1) by omega]
    rw [h0]
    rw [Finset.sum_congr rfl fun k _ => h1 k]
    exact add_comm _ _

/-! ### C1: rolling mean -/

/-- C1: for a dataset with a numeric close column and a positive window
`w`, the rolling mean at 0-based row `i` equals the arithmetic mean of
`close[i-w+1 .. i]` inclusive whenever `i ≥ w - 1`, and is a missing
value for every `i < w - 1`. -/
theorem rollingMean_window_mean (close : List ℚ) (w i : ℕ) (hw : 0 < w)
    (hi : i < close.length) :
    (w - 1 ≤ i → rollingMean close w i =
      some ((∑ k ∈ Finset.Icc (i + 1 - w) i, close.getD k 0) / (w : ℚ))) ∧
    (i < w - 1 → rollingMean close w i = none) := by
  constructor
  · intro h
    have hw' : w ≤ i + 1 := by omega
    rw [rollingMean, if_pos ⟨hw, hw'⟩]
    rw [← Nat.Ico_succ_right, Nat.succ_eq_add_one, Finset.sum_Ico_eq_sum_range,
      show i + 1 - (i + 1 - w) = w by omega,
      ← sum_drop_take close (i + 1 - w) w (by omega)]
  · intro h
    rw [rollingMean, if_neg]
    rintro ⟨h1, h2⟩
    omega

/-- Witness for C1 on a concrete dataset: window 2 at row 2 of
`[1, 2, 3, 4]` is the mean of rows 1 and 2; window 3 at row 1 is missing. -/
theorem rollingMean_window_mean_witness :
    rollingMean [(1 : ℚ), 2, 3, 4] 2 2 =
      some ((∑ k ∈ Finset.Icc 1 2, ([(1 : ℚ), 2, 3, 4]).getD k 0) / (2 : ℚ)) ∧
    rollingMean [(1 : ℚ), 2, 3, 4] 3 1 = none :=
  ⟨(rollingMean_window_mean [(1 : ℚ), 2, 3, 4] 2 2 (by decide) (by decide)).1 (by decide),
   (rollingMean_window_mean [(1 : ℚ), 2, 3, 4] 3 1 (by decide) (by decide)).2 (by decide)⟩

/-! ### C2: signal -/

/-- C2: `signal[i]` is 1 exactly when the close strictly exceeds a
defined rolling mean, and 0 otherwise; in particular every row with an
undefined rolling mean — hence every row `i < w - 1` — has signal 0, the
comparison with the missing value silently being false. -/
theorem signal_threshold (close : List ℚ) (w i : ℕ) :
    (rollingMean close w i = none → signal close w i = 0) ∧
    (∀ m, rollingMean close w i = some m →
      signal close w i = if close.getD i 0 > m then 1 else 0) ∧
    (i < w - 1 → signal close w i = 0) := by
  refine ⟨fun h => by rw [signal, h], fun m h => by rw [signal, h], fun h => ?_⟩
  have hnone : rollingMean close w i = none := by
    rw [rollingMean, if_neg]
    rintro ⟨h1, h2⟩
    omega
  rw [signal, hnone]

/-- Witness for C2 on a concrete dataset: with window 2, row 0 of
`[1, 2, 3]` has a missing mean and signal 0; row 1 has mean 3/2 and
close 2 > 3/2, so signal 1. -/
theorem signal_threshold_witness :
    signal [(1 : ℚ), 2, 3] 2 0 = 0 ∧ signal [(1 : ℚ), 2, 3] 2 1 = 1 :=
  ⟨(signal_threshold [(1 : ℚ), 2, 3] 2 0).1 (by decide),
   by rw [(signal_threshold [(1 : ℚ), 2, 3] 2 1).2.1 (3 / 2) (by norm_num [rollingMean])]
      norm_num⟩

/-! ### C4: signal rate and its rounding -/

/-- Each signal value is 0 or 1, hence at most 1. -/
theorem signal_le_one (close : List ℚ) (w i : ℕ) : signal close w i ≤ 1 := by
  unfold signal
  cases rollingMean close w i with
  | none => exact Nat.zero_le 1
  | some m =>
    show (if close.getD i 0 > m then 1 else 0) ≤ 1
    split <;> simp

/-- A list of naturals bounded by 1 sums to its number of ones. -/
theorem sum_eq_count_one (l : List ℕ) (h : ∀ x ∈ l, x ≤ 1) : l.sum = l.count 1 := by
  induction l with
  | nil => simp
  | cons a l ih =>
    have ha : a ≤ 1 := h a (List.mem_cons_self a l)
    have ih' := ih fun x hx => h x (List.mem_cons_of_mem a hx)
    interval_cases a <;> simp [List.count_cons, ih', Nat.add_comm]

/-- The signal rate is the number of signal-1 rows over the row count. -/
theorem signalRate_eq_count (close : List ℚ) (w : ℕ) :
    signalRate close w = ((signals close w).count 1 : ℚ) / (close.length : ℚ) := by
  rw [signalRate, sum_eq_count_one]
  intro x hx
  simp only [signals, List.mem_map, List.mem_range] at hx
  obtain ⟨i, -, rfl⟩ := hx
  exact signal_le_one close w i

/-- The signal rate is nonnegative. -/
theorem signalRate_nonneg (close : List ℚ) (w : ℕ) : 0 ≤ signalRate close w := by
  unfold signalRate
  positivity

/-- The signal rate is at most 1. -/
theorem signalRate_le_one (close : List ℚ) (w : ℕ) : signalRate close w ≤ 1 := by
  unfold signalRate
  apply div_le_one_of_le₀ ?_ (by positivity)
  have hsum : (signals close w).sum ≤ (signals close w).length := by
    have := List.sum_le_card_nsmul (signals close w) 1 ?_
    · simpa using this
    · intro x hx
      simp only [signals, List.mem_map, List.mem_range] at hx
      obtain ⟨i, -, rfl⟩ := hx
      exact signal_le_one close w i
  have hlen : (signals close w).length = close.length := by simp [signals]
  exact_mod_cast hlen ▸ hsum

/-- Half-even rounding never rounds below the floor. -/
theorem floor_le_roundHalfEven (q : ℚ) : ⌊q⌋ ≤ roundHalfEven q := by
  unfold roundHalfEven
  split_ifs <;> omega

/-- Half-even rounding of a value at most an integer `n` stays at most `n`. -/
theorem roundHalfEven_le {q : ℚ} {n : ℤ} (h : q ≤ (n : ℚ)) : roundHalfEven q ≤ n := by
  have hfl : ⌊q⌋ ≤ n := by
    have := Int.floor_le_floor h
    rwa [Int.floor_intCast] at this
  have hq : (⌊q⌋ : ℚ) ≤ q := Int.floor_le q
  unfold roundHalfEven
  split_ifs with h1 h2 h3
  · exact hfl
  · have : (⌊q⌋ : ℚ) < (n : ℚ) := by linarith
    have := Int.cast_lt.mp this
    omega
  · exact hfl
  · have h2' : q - ⌊q⌋ = 1 / 2 := by linarith
    have : (⌊q⌋ : ℚ) < (n : ℚ) := by linarith
    have := Int.cast_lt.mp this
    omega

/-- Half-even rounding of a value at least an integer `n` stays at least `n`. -/
theorem le_roundHalfEven {q : ℚ} {n : ℤ} (h : (n : ℚ) ≤ q) : n ≤ roundHalfEven q := by
  have : n ≤ ⌊q⌋ := Int.le_floor.mpr h
  have := floor_le_roundHalfEven q
  omega

/-- Rounding to 4 decimal places preserves membership in `[0, 1]`. -/
theorem round4_mem_unit {q : ℚ} (h0 : 0 ≤ q) (h1 : q ≤ 1) :
    0 ≤ round4 q ∧ round4 q ≤ 1 := by
  have hl : (0 : ℤ) ≤ roundHalfEven (q * 10000) := by
    apply le_roundHalfEven
    push_cast
    linarith
  have hu : roundHalfEven (q * 10000) ≤ (10000 : ℤ) := by
    apply roundHalfEven_le
    push_cast
    linarith
  constructor
  · apply div_nonneg ?_ (by norm_num)
    exact_mod_cast hl
  · rw [round4]
    rw [div_le_one (by norm_num)]
    exact_mod_cast hu

/-- Case characterisation of `mainRun`: exactly one of the four control
paths is taken — config-load failure, data-load failure, window
rejection, or success — and it determines the whole run outcome. -/
theorem mainRun_cases (cfgFile : FileContent (List (String × Val)))
    (dataFile : FileContent Table) (lat : ℕ) :
    (∃ e, load_config cfgFile = .error e ∧
      mainRun cfgFile dataFile lat =
        ⟨Report.failure (Val.str "unknown") "error" e.message, 1,
          [Report.failure (Val.str "unknown") "error" e.message]⟩) ∨
    (∃ cfg, load_config cfgFile = .ok cfg ∧
      ((∃ e, load_data dataFile = .error e ∧
          mainRun cfgFile dataFile lat =
            ⟨Report.failure cfg.version "error" e.message, 1,
              [Report.failure cfg.version "error" e.message]⟩) ∨
        (∃ t, load_data dataFile = .ok t ∧
          ((∃ e, windowArg cfg.window = .error e ∧
              mainRun cfgFile dataFile lat =
                ⟨Report.failure cfg.version "error" e.message, 1,
                  [Report.failure cfg.version "error" e.message]⟩) ∨
            (∃ w, windowArg cfg.window = .ok w ∧
              mainRun cfgFile dataFile lat =
                ⟨Report.success cfg.version t.rows.length "signal_rate"
                    (round4 (signalRate t.close w)) lat cfg.seed "success", 0,
                  [Report.success cfg.version t.rows.length "signal_rate"
                    (round4 (signalRate t.close w)) lat cfg.seed "success"]⟩))))) := by
  cases hc : load_config cfgFile with
  | error e => exact Or.inl ⟨e, rfl, by simp [mainRun, hc]⟩
  | ok cfg =>
    refine Or.inr ⟨cfg, rfl, ?_⟩
    cases hd : load_data dataFile with
    | error e => exact Or.inl ⟨e, rfl, by simp [mainRun, hc, hd]⟩
    | ok t =>
      refine Or.inr ⟨t, rfl, ?_⟩
      cases hw : windowArg cfg.window with
      | error e => exact Or.inl ⟨e, rfl, by simp [mainRun, hc, hd, hw]⟩
      | ok w => exact Or.inr ⟨w, rfl, by simp [mainRun, hc, hd, hw]⟩

/-- C4: on every successful run the signal rate is the count of
signal-1 rows over the row count, lies in `[0, 1]`, and the report's
`value` is that rate rounded to 4 decimal places (hence also in
`[0, 1]`). -/
theorem success_value_is_rounded_rate (cfgFile : FileContent (List (String × Val)))
    (dataFile : FileContent Table) (lat : ℕ) (v : Val) (r : ℕ) (m : String)
    (val : ℚ) (l : ℕ) (s : Val) (st : String)
    (h : (mainRun cfgFile dataFile lat).report = Report.success v r m val l s st) :
    0 ≤ val ∧ val ≤ 1 ∧
    ∃ t w, load_data dataFile = .ok t ∧ r = t.rows.length ∧
      val = round4 (signalRate t.close w) ∧
      signalRate t.close w =
        ((signals t.close w).count 1 : ℚ) / (t.rows.length : ℚ) ∧
      0 ≤ signalRate t.close w ∧ signalRate t.close w ≤ 1 := by
  rcases mainRun_cases cfgFile dataFile lat with ⟨e, -, hrun⟩ | ⟨cfg, -, hnext⟩
  · rw [hrun] at h; simp at h
  · rcases hnext with ⟨e, -, hrun⟩ | ⟨t, hd, hnext⟩
    · rw [hrun] at h; simp at h
    · rcases hnext with ⟨e, -, hrun⟩ | ⟨w, -, hrun⟩
      · rw [hrun] at h; simp at h
      · rw [hrun] at h
        simp only [Report.success.injEq] at h
        obtain ⟨-, hr, -, hval, -, -, -⟩ := h
        have hb := round4_mem_unit (signalRate_nonneg t.close w) (signalRate_le_one t.close w)
        refine ⟨hval ▸ hb.1, hval ▸ hb.2, t, w, hd, hr.symm, hval.symm, ?_,
          signalRate_nonneg t.close w, signalRate_le_one t.close w⟩
        rw [signalRate_eq_count]
        have : t.close.length = t.rows.length := by simp [Table.close]
        rw [this]

/-- Witness for C4: a concrete successful run with window 2 over three
rows; the theorem applies and bounds the reported value. -/
theorem success_value_is_rounded_rate_witness :
    0 ≤ round4 (signalRate (Table.close ⟨["close"], [[1], [2], [3]]⟩) 2) ∧
    round4 (signalRate (Table.close ⟨["close"], [[1], [2], [3]]⟩) 2) ≤ 1 := by
  have h := success_value_is_rounded_rate
    (FileContent.parsed [("seed", Val.int 1), ("window", Val.int 2), ("version", Val.str "v")])
    (FileContent.parsed ⟨["close"], [[1], [2], [3]]⟩) 0 (Val.str "v") 3 "signal_rate"
    (round4 (signalRate (Table.close ⟨["close"], [[1], [2], [3]]⟩) 2)) 0 (Val.int 1) "success"
    rfl
  exact ⟨h.1, h.2.1⟩

/-! ### C5: configuration loader contract -/

/-- C5: `load_config` fails with the file-not-found error exactly when
the path does not exist, with a YAML parse error (the spec's
FormatError) exactly when the document is unparsable, with the
validation error exactly when one of `seed`, `window`, `version` is
absent from the parsed mapping, and otherwise returns the three config
values; being a pure function, it has no side effects. -/
theorem load_config_contract (file : FileContent (List (String × Val))) :
    (load_config file = .error (.fileNotFound "Configuration file not found") ↔
      file = .missing) ∧
    ((∃ m, load_config file = .error (.yamlError m)) ↔ file = .unparsable) ∧
    (∀ kvs, file = .parsed kvs →
      ((∃ m, load_config file = .error (.valueError m)) ↔
        ((kvs.lookup "seed").isNone ∨ (kvs.lookup "window").isNone ∨
          (kvs.lookup "version").isNone)) ∧
      ∀ s w v, kvs.lookup "seed" = some s → kvs.lookup "window" = some w →
        kvs.lookup "version" = some v → load_config file = .ok ⟨s, w, v⟩) := by
  cases file with
  | missing =>
    refine ⟨by simp [load_config], by simp [load_config], fun kvs h => ?_⟩
    simp at h
  | unparsable =>
    refine ⟨by simp [load_config], by simp [load_config], fun kvs h => ?_⟩
    simp at h
  | parsed kvs =>
    refine ⟨?_, ?_, fun kvs' h => ?_⟩
    · cases hs : kvs.lookup "seed" <;> cases hw : kvs.lookup "window" <;>
        cases hv : kvs.lookup "version" <;> simp [load_config, hs, hw, hv]
    · cases hs : kvs.lookup "seed" <;> cases hw : kvs.lookup "window" <;>
        cases hv : kvs.lookup "version" <;> simp [load_config, hs, hw, hv]
    · obtain rfl : kvs = kvs' := by simpa using h
      constructor
      · cases hs : kvs.lookup "seed" <;> cases hw : kvs.lookup "window" <;>
          cases hv : kvs.lookup "version" <;> simp [load_config, hs, hw, hv]
      · intro s w v hs hw hv
        simp [load_config, hs, hw, hv]

/-- Witness for C5: a parsed config with all three keys loads
successfully, and a parsed config missing `window` fails validation. -/
theorem load_config_contract_witness :
    load_config (FileContent.parsed
      [("seed", Val.int 1), ("window", Val.int 2), ("version", Val.str "v")]) =
      .ok ⟨Val.int 1, Val.int 2, Val.str "v"⟩ ∧
    (∃ m, load_config (FileContent.parsed [("seed", Val.int 1)]) =
      .error (.valueError m)) :=
  ⟨((load_config_contract (FileContent.parsed
      [("seed", Val.int 1), ("window", Val.int 2), ("version", Val.str "v")])).2.2 _
      rfl).2 _ _ _ rfl rfl rfl,
   ((load_config_contract (FileContent.parsed [("seed", Val.int 1)])).2.2 _ rfl).1.mpr
      (by simp)⟩

/-! ### C10: dataset loader check order -/

/-- C10: in `load_data` the empty-table check precedes the close-column
check — a parsed table with zero data rows fails with the empty-dataset
error even when it also lacks a `close` column, and the missing-close
error occurs exactly for non-empty tables without a `close` column. -/
theorem load_data_empty_before_close (t : Table) :
    (load_data (.parsed t) = .error (.valueError "Input file is empty") ↔
      t.rows = []) ∧
    (load_data (.parsed t) = .error (.valueError "Missing required column: close") ↔
      (t.rows ≠ [] ∧ "close" ∉ t.columns)) := by
  by_cases he : t.rows = []
  · constructor
    · simp [load_data, he]
    · simp [load_data, he]
  · have he' : ¬ t.rows.isEmpty := by simpa [List.isEmpty_iff] using he
    by_cases hcl : "close" ∈ t.columns
    · have : t.columns.contains "close" := by simpa using hcl
      constructor
      · simp [load_data, he', this, he, hcl]
      · simp [load_data, he', this, hcl]
    · have : ¬ t.columns.contains "close" := by simpa using hcl
      constructor
      · simp [load_data, he', this, he, hcl]
      · simp [load_data, he', this, hcl, he]

/-! ### C6: error-report version and exit code -/

/-- C6: whenever a run produces the error report, its status is
`"error"`, the process exits with code 1, and the report's `version` is
the sentinel `"unknown"` when config loading failed and the loaded
config's `version` when config loading had succeeded before the fault. -/
theorem error_report_version_field (cfgFile : FileContent (List (String × Val)))
    (dataFile : FileContent Table) (lat : ℕ) (v : Val) (st msg : String)
    (h : (mainRun cfgFile dataFile lat).report = Report.failure v st msg) :
    st = "error" ∧ (mainRun cfgFile dataFile lat).exitCode = 1 ∧
    (∀ e, load_config cfgFile = .error e → v = Val.str "unknown") ∧
    (∀ cfg, load_config cfgFile = .ok cfg → v = cfg.version) := by
  rcases mainRun_cases cfgFile dataFile lat with ⟨e, hc, hrun⟩ | ⟨cfg, hc, hnext⟩
  · rw [hrun] at h
    simp only [Report.failure.injEq] at h
    obtain ⟨hv, hst, -⟩ := h
    refine ⟨hst.symm, by rw [hrun], fun e' _ => hv.symm, fun cfg hcfg => ?_⟩
    rw [hc] at hcfg
    simp at hcfg
  · have hversion : ∀ e', load_config cfgFile = .error e' → v = Val.str "unknown" := by
      intro e' he'
      rw [hc] at he'
      simp at he'
    have hok : ∀ cfg', load_config cfgFile = .ok cfg' → cfg' = cfg := by
      intro cfg' hc'
      rw [hc] at hc'
      exact (Except.ok.injEq _ _ ▸ hc').symm
    rcases hnext with ⟨e, hd, hrun⟩ | ⟨t, hd, hnext⟩
    · rw [hrun] at h
      simp only [Report.failure.injEq] at h
      obtain ⟨hv, hst, -⟩ := h
      exact ⟨hst.symm, by rw [hrun], hversion, fun cfg' hc' => (hok cfg' hc') ▸ hv.symm⟩
    · rcases hnext with ⟨e, hw, hrun⟩ | ⟨w, hw, hrun⟩
      · rw [hrun] at h
        simp only [Report.failure.injEq] at h
        obtain ⟨hv, hst, -⟩ := h
        exact ⟨hst.symm, by rw [hrun], hversion, fun cfg' hc' => (hok cfg' hc') ▸ hv.symm⟩
      · rw [hrun] at h
        simp at h

/-- Witness for C6: a run with a missing config file produces the error
report with exit code 1. -/
theorem error_report_version_field_witness :
    (mainRun FileContent.missing (FileContent.parsed ⟨["close"], [[1]]⟩) 0).exitCode = 1 :=
  (error_report_version_field FileContent.missing (FileContent.parsed ⟨["close"], [[1]]⟩) 0
    (Val.str "unknown") "error" "Configuration file not found" rfl).2.1

/-! ### C8: determinism up to latency -/

/-- C8: two runs on the same config and input files yield the same exit
code and reports agreeing on every field except `latency_ms` (the `core`
view erases only that field). -/
theorem run_deterministic (cfgFile : FileContent (List (String × Val)))
    (dataFile : FileContent Table) (l1 l2 : ℕ) :
    ((mainRun cfgFile dataFile l1).report).core =
      ((mainRun cfgFile dataFile l2).report).core ∧
    (mainRun cfgFile dataFile l1).exitCode = (mainRun cfgFile dataFile l2).exitCode := by
  cases hc : load_config cfgFile with
  | error e => simp [mainRun, hc, Report.core]
  | ok cfg =>
    cases hd : load_data dataFile with
    | error e => simp [mainRun, hc, hd, Report.core]
    | ok t =>
      cases hw : windowArg cfg.window with
      | error e => simp [mainRun, hc, hd, hw, Report.core]
      | ok w => simp [mainRun, hc, hd, hw, Report.core]

/-! ### C9: the report is written exactly once -/

/-- C9: every run writes exactly one document to the output path, and it
is the run's final report — the success report or the error report,
never both and never a partial document. -/
theorem report_written_once (cfgFile : FileContent (List (String × Val)))
    (dataFile : FileContent Table) (lat : ℕ) :
    (mainRun cfgFile dataFile lat).writes = [(mainRun cfgFile dataFile lat).report] := by
  rcases mainRun_cases cfgFile dataFile lat with ⟨e, -, hrun⟩ | ⟨cfg, -, hnext⟩
  · rw [hrun]
  · rcases hnext with ⟨e, -, hrun⟩ | ⟨t, -, hnext⟩
    · rw [hrun]
    · rcases hnext with ⟨e, -, hrun⟩ | ⟨w, -, hrun⟩ <;> rw [hrun]

/-! ### C7: window larger than the row count -/

/-- Rounding preserves zero. -/
theorem round4_zero : round4 0 = 0 := by
  norm_num [round4, roundHalfEven]

/-- C7: when the window exceeds the row count, every row's rolling mean
is missing, every signal is 0, the signal rate is 0, and the run still
completes successfully (exit code 0) with reported value 0. -/
theorem window_gt_rows (cfgFile : FileContent (List (String × Val)))
    (dataFile : FileContent Table) (lat : ℕ) (cfg : Config) (t : Table) (w : ℕ)
    (hc : load_config cfgFile = .ok cfg) (hwv : cfg.window = Val.int (w : ℤ))
    (hd : load_data dataFile = .ok t) (hlen : t.rows.length < w) :
    (∀ i < t.close.length, rollingMean t.close w i = none ∧ signal t.close w i = 0) ∧
    signalRate t.close w = 0 ∧
    (mainRun cfgFile dataFile lat).exitCode = 0 ∧
    (mainRun cfgFile dataFile lat).report =
      Report.success cfg.version t.rows.length "signal_rate" 0 lat cfg.seed "success" := by
  have hclen : t.close.length = t.rows.length := by simp [Table.close]
  have hnone : ∀ i < t.close.length, rollingMean t.close w i = none := by
    intro i hi
    rw [rollingMean, if_neg]
    rintro ⟨-, h2⟩
    omega
  have hsig : ∀ i < t.close.length, signal t.close w i = 0 := by
    intro i hi
    unfold signal
    rw [hnone i hi]
  have hrate : signalRate t.close w = 0 := by
    have hz : (signals t.close w).sum = 0 := by
      apply List.sum_eq_zero
      intro x hx
      simp only [signals, List.mem_map, List.mem_range] at hx
      obtain ⟨i, hi, rfl⟩ := hx
      exact hsig i hi
    rw [signalRate, hz]
    simp
  have hwa : windowArg cfg.window = .ok w := by
    have hnn : ¬ ((w : ℤ) < 0) := by omega
    rw [hwv]
    simp [windowArg, hnn]
  refine ⟨fun i hi => ⟨hnone i hi, hsig i hi⟩, hrate, ?_, ?_⟩ <;>
  · rcases mainRun_cases cfgFile dataFile lat with ⟨e, hc', -⟩ | ⟨cfg', hc', hnext⟩
    · rw [hc] at hc'; simp at hc'
    · rw [hc] at hc'
      obtain rfl : cfg' = cfg := by simpa using hc'.symm
      rcases hnext with ⟨e, hd', -⟩ | ⟨t', hd', hnext⟩
      · rw [hd] at hd'; simp at hd'
      · rw [hd] at hd'
        obtain rfl : t' = t := by simpa using hd'.symm
        rcases hnext with ⟨e, hw', -⟩ | ⟨w', hw', hrun⟩
        · rw [hwa] at hw'; simp at hw'
        · rw [hwa] at hw'
          obtain rfl : w' = w := by simpa using hw'.symm
          rw [hrun] <;> simp [hrate, round4_zero]

/-- Witness for C7: window 5 over a 2-row dataset — the rolling mean at
row 1 is missing, the rate is 0, and the run exits with code 0. -/
theorem window_gt_rows_witness :
    rollingMean (Table.close ⟨["close"], [[1], [2]]⟩) 5 1 = none ∧
    signalRate (Table.close ⟨["close"], [[1], [2]]⟩) 5 = 0 ∧
    (mainRun
      (FileContent.parsed [("seed", Val.int 1), ("window", Val.int 5), ("version", Val.str "v")])
      (FileContent.parsed ⟨["close"], [[1], [2]]⟩) 3).exitCode = 0 := by
  have h := window_gt_rows
    (FileContent.parsed [("seed", Val.int 1), ("window", Val.int 5), ("version", Val.str "v")])
    (FileContent.parsed ⟨["close"], [[1], [2]]⟩) 3 ⟨Val.int 1, Val.int 5, Val.str "v"⟩
    ⟨["close"], [[1], [2]]⟩ 5 rfl rfl rfl (by decide)
  exact ⟨(h.1 1 (by decide)).1, h.2.1, h.2.2.1⟩

/-! ### C3: non-positive window is not rejected by the code -/

/-- C3 counter-evidence: the source has no guard on non-positive
windows. With `window = 0` in the config and a valid three-row dataset,
pandas accepts the window, every rolling mean is missing, and the run
completes successfully with value 0 and exit code 0 — no ValidationError
is raised, contrary to the specified corrective behaviour. -/
theorem window_zero_runs_successfully :
    (mainRun
        (FileContent.parsed [("seed", Val.int 7), ("window", Val.int 0), ("version", Val.str "1.0")])
        (FileContent.parsed ⟨["close"], [[1], [2], [3]]⟩) 5).exitCode = 0 ∧
    (mainRun
        (FileContent.parsed [("seed", Val.int 7), ("window", Val.int 0), ("version", Val.str "1.0")])
        (FileContent.parsed ⟨["close"], [[1], [2], [3]]⟩) 5).report =
      Report.success (Val.str "1.0") 3 "signal_rate" 0 5 (Val.int 7) "success" ∧
    ∀ i, rollingMean (Table.close ⟨["close"], [[1], [2], [3]]⟩) 0 i = none := by
  have h0 : signalRate (Table.close ⟨["close"], [[1], [2], [3]]⟩) 0 = 0 := by
    have hz : ∀ i, rollingMean (Table.close ⟨["close"], [[1], [2], [3]]⟩) 0 i = none := by
      intro i
      simp [rollingMean]
    have hs : ∀ i, signal (Table.close ⟨["close"], [[1], [2], [3]]⟩) 0 i = 0 := by
      intro i
      unfold signal
      rw [hz i]
    have : (signals (Table.close ⟨["close"], [[1], [2], [3]]⟩) 0).sum = 0 := by
      apply List.sum_eq_zero
      intro x hx
      simp only [signals, List.mem_map, List.mem_range] at hx
      obtain ⟨i, -, rfl⟩ := hx
      exact hs i
    rw [signalRate, this]
    simp
  have hrun : mainRun
      (FileContent.parsed [("seed", Val.int 7), ("window", Val.int 0), ("version", Val.str "1.0")])
      (FileContent.parsed ⟨["close"], [[1], [2], [3]]⟩) 5 =
      ⟨Report.success (Val.str "1.0") 3 "signal_rate"
          (round4 (signalRate (Table.close ⟨["close"], [[1], [2], [3]]⟩) 0)) 5 (Val.int 7) "success", 0,
        [Report.success (Val.str "1.0") 3 "signal_rate"
          (round4 (signalRate (Table.close ⟨["close"], [[1], [2], [3]]⟩) 0)) 5 (Val.int 7) "success"]⟩ := rfl
  refine ⟨by rw [hrun], ?_, fun i => by simp [rollingMean]⟩
  rw [hrun, h0, round4_zero]
